import Mathlib

/-!
Shallow embedding of the work-hours-tracker web application
(four near-duplicate express/mongodb variants) and proofs about its
timesheet engine: duration computation, job and daily-entry CRUD with
duplicate prevention, ownership-scoped update/delete, and reporting.

Variant naming: `_v0` embeds src/unnamed/part_000, `_v1` embeds
src/unnamed/part_001, `_v2` embeds src/unnamed/part_002, `_vIx`
embeds src/index.js.

Modelling conventions:
* Form fields arrive as `Option` values: `none` is an absent field
  (JS `undefined`).  A JS string field is falsy exactly when it is
  absent or the empty string; note `"0"` is a truthy string.
* Calendar dates are the parsed value of a `YYYY-MM-DD` form string,
  and clock times the parsed value of an `HH:MM` form string; string
  equality of the canonical forms coincides with structural equality.
* `new Date(date + "T" + time)` is embedded as milliseconds since the
  epoch: civil days-from-epoch times 86400000 plus the time of day.
* JS numbers are embedded as `ℚ`; `toFixed(2)` becomes rounding to
  two decimal places; the `NaN` produced by `Number` on a
  non-numeric string is `none` of an `Option ℚ`.
* mongodb: `findOne` is `List.find?`, `insertOne` appends, `deleteOne`
  erases the first match, `updateOne` rewrites the first match; `_id`
  is a natural number drawn from a store counter.
-/

namespace WorkHours

/-- JS `Number(x.toFixed(2))`: round to two decimal places. -/
def round2 (q : ℚ) : ℚ := (round (q * 100) : ℚ) / 100

/-- A calendar date, the parsed value of a `YYYY-MM-DD` form string. -/
structure Date where
  year : ℕ
  month : ℕ
  day : ℕ
deriving DecidableEq, Repr

/-- A clock time, the parsed value of an `HH:MM` form string. -/
structure Time where
  hour : ℕ
  minute : ℕ
deriving DecidableEq, Repr

/-- Days from the epoch 1970-01-01 of a proleptic-Gregorian civil date
(the standard days-from-civil algorithm, as used by a JS `Date`). -/
def daysFromCivil (dt : Date) : ℤ :=
  let y : ℤ := if dt.month ≤ 2 then (dt.year : ℤ) - 1 else (dt.year : ℤ)
  let era : ℤ := Int.fdiv y 400
  let yoe : ℤ := y - era * 400
  let mp : ℤ := ((dt.month : ℤ) + 9) % 12
  let doy : ℤ := Int.fdiv (153 * mp + 2) 5 + (dt.day : ℤ) - 1
  let doe : ℤ := yoe * 365 + Int.fdiv yoe 4 - Int.fdiv yoe 100 + doy
  era * 146097 + doe - 719468

/-- Milliseconds since the epoch at midnight of a date. -/
def dateEpochMs (dt : Date) : ℤ := daysFromCivil dt * 86400000

/-- Milliseconds past midnight of a clock time. -/
def msOfTime (t : Time) : ℤ := ((t.hour * 60 + t.minute : ℕ) : ℤ) * 60000

/-- `new Date(d + "T" + t)` as milliseconds since the epoch. -/
def instantMs (d : Date) (t : Time) : ℤ := dateEpochMs d + msOfTime t

/-- `(new Date(d+"T"+e) - new Date(d+"T"+s)) / (1000*60*60)`. -/
def rawHours (d : Date) (s e : Time) : ℚ :=
  ((instantMs d e - instantMs d s : ℤ) : ℚ) / 3600000

/-- The duration with overnight wraparound: `if (totalHours < 0) totalHours += 24`. -/
def durationHours (d : Date) (s e : Time) : ℚ :=
  let r := rawHours d s e
  if r < 0 then r + 24 else r

/-- The month key `YYYY-MM` built by the report code:
`date.getFullYear() + "-" + String(date.getMonth()+1).padStart(2,"0")`. -/
def pad2 (n : ℕ) : String := if n < 10 then "0" ++ toString n else toString n

def monthKey (d : Date) : String := toString d.year ++ "-" ++ pad2 d.month

/-- A stored user record: `{ username, email, password: hashedPassword }`. -/
structure User where
  username : String
  email : String
  password : String
deriving DecidableEq, Repr

/-- A stored job record. -/
structure Job where
  id : ℕ
  username : String
  jobName : String
  date : Date
  salaryType : String
  salaryAmount : ℚ
  createdAt : ℕ
deriving DecidableEq, Repr

/-- A stored daily-entry record. -/
structure DailyEntry where
  id : ℕ
  username : String
  jobName : String
  date : Date
  startTime : Time
  endTime : Time
  totalHours : ℚ
  createdAt : ℕ
deriving DecidableEq, Repr

/-- The three mongodb collections plus a counter for fresh ids. -/
structure Store where
  users : List User
  jobs : List Job
  dailyJobs : List DailyEntry
  nextId : ℕ
deriving DecidableEq, Repr

/-- The externally visible response of a handler: a redirect, a page
render carrying an optional error message, or an HTTP 404. -/
inductive Res where
  | redirect (url : String)
  | render (view : String) (err : Option String)
  | notFound (msg : String)
deriving DecidableEq, Repr

/-- JS `String.prototype.trim`: strip leading and trailing whitespace
(structurally, so that it evaluates inside the kernel). -/
def jsTrim (s : String) : String :=
  String.mk (((s.toList.dropWhile Char.isWhitespace).reverse.dropWhile Char.isWhitespace).reverse)

/-- JS falsiness of an optional string form field: absent or empty.
The string `"0"` is truthy. -/
def falsyS : Option String → Bool
  | none => true
  | some s => s == ""

/-- All-digit decimal value of a character list, `none` if any
character is not a digit or the list is empty. -/
def parseDigits : List Char → Option ℕ
  | [] => none
  | cs => cs.foldlM (fun acc c => if c.isDigit then some (acc * 10 + (c.toNat - 48)) else none) 0

/-- JS `Number` on a plain decimal string literal (optional sign,
digits, optional `.` and fraction digits); `none` models `NaN`.
`Number("") = 0`.  Exotic accepted spellings (`"1e3"`, `".5"`, `"12."`,
hex, surrounding whitespace) are outside the modelled grammar. -/
def jsNumber (s : String) : Option ℚ :=
  match s.toList with
  | [] => some 0
  | c :: cs0 =>
    let body := if c == '-' then cs0 else c :: cs0
    let nDots := body.countP (fun x => x == '.')
    let q? : Option ℚ :=
      if nDots = 0 then (parseDigits body).map (fun n => (n : ℚ))
      else if nDots = 1 then
        let ip := body.takeWhile (fun x => x != '.')
        let fp := (body.dropWhile (fun x => x != '.')).tail
        match parseDigits ip, parseDigits fp with
        | some i, some f => some ((i : ℚ) + (f : ℚ) / (10 ^ fp.length))
        | _, _ => none
      else none
    q?.map (fun q => if c == '-' then -q else q)

/-- JS `Number` of an optional field: `Number(undefined)` is `NaN`. -/
def jsNumberOpt : Option String → Option ℚ
  | none => none
  | some s => jsNumber s

/-- Rewrite the first list element satisfying `p` (mongodb `updateOne`). -/
def updateFirst (p : α → Bool) (f : α → α) : List α → List α
  | [] => []
  | x :: xs => if p x then f x :: xs else x :: updateFirst p f xs

/-- part_000 `POST /register`: missing-field check, duplicate-email
check against `usersCollection`, then insert with a hashed password.
`hash` abstracts `bcrypt.hash(password, 10)`. -/
def register_v0 (username email password : Option String)
    (hash : String → String) (s : Store) : Res × Store :=
  if falsyS username || falsyS email || falsyS password then
    (Res.render "register" (some "All fields are required!"), s)
  else
    let un := username.getD ""
    let em := email.getD ""
    let pw := password.getD ""
    match s.users.find? (fun u => u.email == em) with
    | some _ => (Res.render "register" (some "Email already registered!"), s)
    | none =>
      (Res.redirect "/login",
        { s with users := s.users ++ [{ username := un, email := em, password := hash pw }] })

/-- index.js `POST /register`: also requires a `confirmPassword` field
and that the two passwords match, before the duplicate-email check. -/
def register_vIx (username email password confirmPassword : Option String)
    (hash : String → String) (s : Store) : Res × Store :=
  if falsyS username || falsyS email || falsyS password || falsyS confirmPassword then
    (Res.render "register" (some "All fields are required!"), s)
  else if password ≠ confirmPassword then
    (Res.render "register" (some "Passwords do not match!"), s)
  else
    let un := username.getD ""
    let em := email.getD ""
    let pw := password.getD ""
    match s.users.find? (fun u => u.email == em) with
    | some _ => (Res.render "register" (some "Email already registered!"), s)
    | none =>
      (Res.redirect "/login",
        { s with users := s.users ++ [{ username := un, email := em, password := hash pw }] })

/-- part_000 `POST /login`: find the user by email; reject with one
fixed message when no user matches or the hash does not verify.
`verify` abstracts `bcrypt.compare(password, user.password)`. -/
def login_v0 (email password : Option String)
    (verify : String → String → Bool) (s : Store) : Res :=
  if falsyS email || falsyS password then
    Res.render "login" (some "Email and password required")
  else
    let em := email.getD ""
    let pw := password.getD ""
    match s.users.find? (fun u => u.email == em) with
    | none => Res.render "login" (some "Invalid email or password")
    | some u =>
      if verify pw u.password then Res.redirect "/JobEntry"
      else Res.render "login" (some "Invalid email or password")

/-- part_000 `POST /jobentry`: missing-field redirect, duplicate check
on the trimmed job name, insert with the trimmed name.  The numeric
field `salaryAmount` is modelled post-`Number` coercion. -/
def addJob_v0 (user : String) (jobName : Option String) (date : Option Date)
    (salaryType : Option String) (salaryAmount : Option ℚ)
    (now : ℕ) (s : Store) : Res × Store :=
  match jobName, date, salaryType, salaryAmount with
  | some jn, some dt, some st, some sa =>
    if jn = "" ∨ st = "" then (Res.redirect "/JobEntry", s)
    else
      match s.jobs.find? (fun j => j.username == user && j.jobName == jsTrim jn) with
      | some _ => (Res.render "jobEntry_page" (some "You have already added this job!"), s)
      | none =>
        (Res.redirect "/JobEntry",
          { s with
              jobs := s.jobs ++ [{ id := s.nextId, username := user, jobName := jsTrim jn,
                                   date := dt, salaryType := st, salaryAmount := sa,
                                   createdAt := now }],
              nextId := s.nextId + 1 })
  | _, _, _, _ => (Res.redirect "/JobEntry", s)

/-- part_000 `POST /dailyjob`: missing-field redirect, duplicate check
on `(username, jobName, date)` answered by a silent redirect, then the
duration computation with overnight wraparound, rounded to two
decimals, and the insert. -/
def dailyjob_v0 (user : String) (jobName : Option String) (todayDate : Option Date)
    (startTime endTime : Option Time) (now : ℕ) (s : Store) : Res × Store :=
  match jobName, todayDate, startTime, endTime with
  | some jn, some d, some st, some et =>
    if jn = "" then (Res.redirect "/JobEntry", s)
    else
      match s.dailyJobs.find? (fun e => e.username == user && e.jobName == jn && e.date == d) with
      | some _ => (Res.redirect "/JobEntry", s)
      | none =>
        (Res.redirect "/JobEntry",
          { s with
              dailyJobs := s.dailyJobs ++
                [{ id := s.nextId, username := user, jobName := jn, date := d,
                   startTime := st, endTime := et,
                   totalHours := round2 (durationHours d st et), createdAt := now }],
              nextId := s.nextId + 1 })
  | _, _, _, _ => (Res.redirect "/JobEntry", s)

/-- One `jobRateMap[job.jobName] = Number(job.salaryAmount)` step. -/
def jobRateStep (m : String → Option ℚ) (j : Job) : String → Option ℚ :=
  fun n => if n = j.jobName then some j.salaryAmount else m n

/-- The rate map of part_000 `GET /JobData`:
`jobs.forEach(job => \x7b jobRateMap[job.jobName] = Number(job.salaryAmount) \x7d)`,
last write wins. -/
def jobRate (jobs : List Job) : String → Option ℚ :=
  jobs.foldl jobRateStep (fun _ => none)

/-- One `jobHours[job.jobName][monthKey] += job.totalHours` step
(with the `\x7b\x7d`/`0` initialisation of absent keys). -/
def jobHoursStep (m : String → String → ℚ) (p : DailyEntry × ℚ) : String → String → ℚ :=
  fun j k =>
    if j = p.1.jobName ∧ k = monthKey p.1.date then m j k + p.1.totalHours else m j k

/-- One `totalDaysData[job.jobName] += 1` step for a current-month entry. -/
def totalDaysStep (today : Date) (m : String → ℕ) (p : DailyEntry × ℚ) : String → ℕ :=
  fun j =>
    if j = p.1.jobName ∧ p.1.date.year = today.year ∧ p.1.date.month = today.month
    then m j + 1 else m j

/-- The derived report of part_000 `GET /JobData`. -/
structure Report where
  jobs : List Job
  entries : List (DailyEntry × ℚ)
  jobHoursMap : String → String → ℚ
  totalDays : String → ℕ

/-- part_000 `GET /JobData`: per-entry
`calculatedSalary = Number((dj.totalHours * rate).toFixed(2))` with
`rate = jobRateMap[dj.jobName] || 0`, monthly hours per job keyed by
`YYYY-MM`, and the current-month day count per job.  (`x || 0` agrees
with `Option.getD 0` since a present rate of `0` yields `0` either
way; a `NaN` rate is not modelled because `salaryAmount` is numeric.) -/
def computeReport_v0 (user : String) (today : Date) (s : Store) : Report :=
  let jobs := s.jobs.filter (fun j => j.username == user)
  let dailies := s.dailyJobs.filter (fun e => e.username == user)
  let withSalary := dailies.map
    (fun dj => (dj, round2 (dj.totalHours * ((jobRate jobs dj.jobName).getD 0))))
  ⟨jobs, withSalary,
    withSalary.foldl jobHoursStep (fun _ _ => 0),
    withSalary.foldl (totalDaysStep today) (fun _ => 0)⟩

/-- part_000 `POST /update-job`: `updateOne` on `(_id, username)`
setting only `jobName, date, salaryType, salaryAmount`; 404 when
nothing matched. -/
def updateJob_v0 (user : String) (jobId : ℕ) (jobName : String) (date : Date)
    (salaryType : String) (salaryAmount : ℚ) (s : Store) : Res × Store :=
  match s.jobs.find? (fun j => j.id == jobId && j.username == user) with
  | none => (Res.notFound "Job not found or cannot edit", s)
  | some _ =>
    (Res.redirect "/JobData",
      { s with
          jobs := updateFirst (fun j => j.id == jobId && j.username == user)
            (fun j =>
              { j with jobName := jobName, date := date,
                       salaryType := salaryType, salaryAmount := salaryAmount })
            s.jobs })

/-- part_000 `POST /delete-job/:id`: `deleteOne` scoped to
`(_id, username)`, always answered by a redirect. -/
def deleteJob_v0 (user : String) (jobId : ℕ) (s : Store) : Res × Store :=
  (Res.redirect "/JobData",
    { s with jobs := s.jobs.eraseP (fun j => j.id == jobId && j.username == user) })

/-- part_000 `POST /delete-daily-job/:id`: `deleteOne` scoped to
`(_id, username)`, always answered by a redirect. -/
def deleteDailyJob_v0 (user : String) (entryId : ℕ) (s : Store) : Res × Store :=
  (Res.redirect "/JobData",
    { s with dailyJobs := s.dailyJobs.eraseP (fun e => e.id == entryId && e.username == user) })

/-- index.js `POST /jobentry`: missing-field error, duplicate check on
the raw (untrimmed) job name, insert of the raw name. -/
def jobentry_vIx (user : String) (jobName : Option String) (date : Option Date)
    (salaryType : Option String) (salaryAmount : Option ℚ)
    (now : ℕ) (s : Store) : Res × Store :=
  match jobName, date, salaryType, salaryAmount with
  | some jn, some dt, some st, some sa =>
    if jn = "" ∨ st = "" then
      (Res.render "jobEntry_page" (some "All fields are required!"), s)
    else
      match s.jobs.find? (fun j => j.username == user && j.jobName == jn) with
      | some _ => (Res.render "jobEntry_page" (some "This job name already exists!"), s)
      | none =>
        (Res.render "jobEntry_page" none,
          { s with
              jobs := s.jobs ++ [{ id := s.nextId, username := user, jobName := jn,
                                   date := dt, salaryType := st, salaryAmount := sa,
                                   createdAt := now }],
              nextId := s.nextId + 1 })
  | _, _, _, _ => (Res.render "jobEntry_page" (some "All fields are required!"), s)

/-- index.js `POST /dailyjob`: requires a truthy `totalHours` form
field (a missing or empty string is rejected; the string `"0"` is
truthy), rejects dates other than `today`, checks for a duplicate
`(username, jobName, date)` entry, then stores
`totalHours: Number(totalHours)` as supplied by the caller — no
duration is computed from the times.  A successful insert renders the
page with no error.  The result is `none` when `Number` yields `NaN`
(the source would store `NaN`; not representable in `ℚ`).  The
duplicate-error message interpolates the job name and date in the
source; it is modelled as a fixed string. -/
def dailyjob_vIx (user : String) (jobName : Option String) (todayDate : Option Date)
    (startTime endTime : Option Time) (totalHours : Option String)
    (today : Date) (now : ℕ) (s : Store) : Option (Res × Store) :=
  match jobName, todayDate, startTime, endTime with
  | some jn, some d, some st, some et =>
    if jn = "" ∨ falsyS totalHours then
      some (Res.render "jobEntry_page" (some "All fields are required!"), s)
    else if d ≠ today then
      some (Res.render "jobEntry_page" (some "You can only enter todays date!"), s)
    else
      match s.dailyJobs.find? (fun e => e.username == user && e.jobName == jn && e.date == d) with
      | some _ =>
        some (Res.render "jobEntry_page" (some "You have already added this job for this date!"), s)
      | none =>
        (jsNumberOpt totalHours).map (fun q =>
          (Res.render "jobEntry_page" none,
            { s with
                dailyJobs := s.dailyJobs ++
                  [{ id := s.nextId, username := user, jobName := jn, date := d,
                     startTime := st, endTime := et, totalHours := q, createdAt := now }],
                nextId := s.nextId + 1 }))
  | _, _, _, _ => some (Res.render "jobEntry_page" (some "All fields are required!"), s)

/-- part_001 `POST /dailyjob`: validates only the four
job/date/time fields, checks for a duplicate entry, then
`let hours = Number(totalHours); if (!hours || isNaN(hours))` falls
back to the computed duration with wraparound; the stored value is
`Number(hours.toFixed(2))` on either path. -/
def dailyjob_v1 (user : String) (jobName : Option String) (todayDate : Option Date)
    (startTime endTime : Option Time) (totalHours : Option String)
    (now : ℕ) (s : Store) : Res × Store :=
  match jobName, todayDate, startTime, endTime with
  | some jn, some d, some st, some et =>
    if jn = "" then (Res.redirect "/JobEntry", s)
    else
      match s.dailyJobs.find? (fun e => e.username == user && e.jobName == jn && e.date == d) with
      | some _ =>
        (Res.render "jobEntry_page" (some "You have already added this job for today!"), s)
      | none =>
        let hours : ℚ :=
          match jsNumberOpt totalHours with
          | none => durationHours d st et
          | some q => if q = 0 then durationHours d st et else q
        (Res.redirect "/JobEntry",
          { s with
              dailyJobs := s.dailyJobs ++
                [{ id := s.nextId, username := user, jobName := jn, date := d,
                   startTime := st, endTime := et,
                   totalHours := round2 hours, createdAt := now }],
              nextId := s.nextId + 1 })
  | _, _, _, _ => (Res.redirect "/JobEntry", s)

/-- part_002 `POST /add-daily-job`: missing-field redirect, then an
unconditional insert of the raw hour difference
`(end - start) / (1000*60*60)` — no duplicate check, no overnight
wraparound, no rounding. -/
def addDailyJob_v2 (user : String) (jobName : Option String) (date : Option Date)
    (startTime endTime : Option Time) (now : ℕ) (s : Store) : Res × Store :=
  match jobName, date, startTime, endTime with
  | some jn, some d, some st, some et =>
    if jn = "" then (Res.redirect "/", s)
    else
      (Res.redirect "/",
        { s with
            dailyJobs := s.dailyJobs ++
              [{ id := s.nextId, username := user, jobName := jn, date := d,
                 startTime := st, endTime := et,
                 totalHours := rawHours d st et, createdAt := now }],
            nextId := s.nextId + 1 })
  | _, _, _, _ => (Res.redirect "/", s)

/-- No two stored entries agree on `(username, jobName, date)`. -/
def atMostOnePerTriple (l : List DailyEntry) : Prop :=
  List.Pairwise
    (fun a b => ¬(a.username = b.username ∧ a.jobName = b.jobName ∧ a.date = b.date)) l

/-- The empty store. -/
def sEmpty : Store := ⟨[], [], [], 0⟩

/-- A store holding one job of user "u" named `jsTrim " Tutoring "`
(that is, "Tutoring"), used as a concrete witness input. -/
def sTut : Store :=
  ⟨[], [{ id := 0, username := "u", jobName := jsTrim " Tutoring ", date := ⟨2024, 5, 1⟩,
          salaryType := "hourly", salaryAmount := 10, createdAt := 0 }], [], 1⟩

/-- A job owned by user "bob", used as a concrete witness input. -/
def bobJob : Job :=
  { id := 1, username := "bob", jobName := "Gardening", date := ⟨2024, 5, 1⟩,
    salaryType := "hourly", salaryAmount := 15, createdAt := 0 }

/-- A store holding only `bobJob`. -/
def sBob : Store := ⟨[], [bobJob], [], 2⟩

/-! ### Helper lemmas -/

theorem rawHours_eq (d : Date) (s e : Time) :
    rawHours d s e = ((msOfTime e - msOfTime s : ℤ) : ℚ) / 3600000 := by
  unfold rawHours instantMs
  ring_nf

theorem rawHours_self (d : Date) (t : Time) : rawHours d t t = 0 := by
  simp [rawHours]

theorem durationHours_self (d : Date) (t : Time) : durationHours d t t = 0 := by
  simp [durationHours, rawHours_self]

theorem round2_zero : round2 0 = 0 := by
  simp [round2]

/-! ### Claim C5 -/

/-- Claim C5: for every date `d` and clock time `t`,
`duration(d, t, t) = 0.00`: the wraparound branch is not taken (the
check is strict `< 0`), the result is `0.00` rather than `24.00`, and
a zero-length entry is permitted — `addDailyEntry` (part_000
`POST /dailyjob`) inserts it and answers with the success redirect. -/
theorem zeroLength_duration_v0 (d : Date) (t : Time) (user jn : String) (now : ℕ) (s : Store)
    (hjn : jn ≠ "")
    (hnd : s.dailyJobs.find?
      (fun e => e.username == user && e.jobName == jn && e.date == d) = none) :
    durationHours d t t = 0 ∧
    round2 (durationHours d t t) = 0 ∧
    round2 (durationHours d t t) ≠ 24 ∧
    dailyjob_v0 user (some jn) (some d) (some t) (some t) now s =
      (Res.redirect "/JobEntry",
        { s with
            dailyJobs := s.dailyJobs ++
              [{ id := s.nextId, username := user, jobName := jn, date := d,
                 startTime := t, endTime := t,
                 totalHours := round2 (durationHours d t t), createdAt := now }],
            nextId := s.nextId + 1 }) := by
  have h0 : durationHours d t t = 0 := durationHours_self d t
  have h2 : round2 (durationHours d t t) = 0 := by rw [h0]; exact round2_zero
  refine ⟨h0, h2, by rw [h2]; norm_num, ?_⟩
  simp only [dailyjob_v0]
  rw [if_neg hjn, hnd]

/-- Witness for C5 at a concrete input. -/
theorem zeroLength_duration_v0_witness :
    ("Tutoring" ≠ "") ∧
    ((Store.mk [] [] [] 0).dailyJobs.find?
      (fun e => e.username == "alice" && e.jobName == "Tutoring" && e.date == ⟨2024, 5, 1⟩)
        = none) ∧
    (durationHours ⟨2024, 5, 1⟩ ⟨9, 30⟩ ⟨9, 30⟩ = 0 ∧
     round2 (durationHours ⟨2024, 5, 1⟩ ⟨9, 30⟩ ⟨9, 30⟩) = 0 ∧
     round2 (durationHours ⟨2024, 5, 1⟩ ⟨9, 30⟩ ⟨9, 30⟩) ≠ 24 ∧
     dailyjob_v0 "alice" (some "Tutoring") (some ⟨2024, 5, 1⟩) (some ⟨9, 30⟩) (some ⟨9, 30⟩) 5
        (Store.mk [] [] [] 0) =
      (Res.redirect "/JobEntry",
        { Store.mk [] [] [] 0 with
            dailyJobs := (Store.mk [] [] [] 0).dailyJobs ++
              [{ id := (Store.mk [] [] [] 0).nextId, username := "alice", jobName := "Tutoring",
                 date := ⟨2024, 5, 1⟩, startTime := ⟨9, 30⟩, endTime := ⟨9, 30⟩,
                 totalHours := round2 (durationHours ⟨2024, 5, 1⟩ ⟨9, 30⟩ ⟨9, 30⟩),
                 createdAt := 5 }],
            nextId := (Store.mk [] [] [] 0).nextId + 1 })) :=
  ⟨by decide, rfl,
    zeroLength_duration_v0 ⟨2024, 5, 1⟩ ⟨9, 30⟩ "alice" "Tutoring" 5 (Store.mk [] [] [] 0)
      (by decide) rfl⟩

/-! ### Claim C1 -/

/-- Claim C1 (amended): in the part_000 variant, a daily-entry
submission computes and persists `totalHours` by the duration
algorithm — `rawHours` is the end-minus-start difference in hours on
the given calendar date, 24 is added when it is negative, and the
result is rounded to two decimals before storing.  (The part_002
variant stores the raw signed difference with neither wraparound nor
rounding; see the counterexample.) -/
theorem addDailyEntry_duration_v0 (user jn : String) (d : Date) (st et : Time)
    (now : ℕ) (s : Store) (hjn : jn ≠ "")
    (hnd : s.dailyJobs.find?
      (fun e => e.username == user && e.jobName == jn && e.date == d) = none) :
    dailyjob_v0 user (some jn) (some d) (some st) (some et) now s =
      (Res.redirect "/JobEntry",
        { s with
            dailyJobs := s.dailyJobs ++
              [{ id := s.nextId, username := user, jobName := jn, date := d,
                 startTime := st, endTime := et,
                 totalHours :=
                   round2 (if rawHours d st et < 0 then rawHours d st et + 24
                           else rawHours d st et),
                 createdAt := now }],
            nextId := s.nextId + 1 }) ∧
    rawHours d st et = ((msOfTime et - msOfTime st : ℤ) : ℚ) / 3600000 := by
  constructor
  · simp only [dailyjob_v0]
    rw [if_neg hjn, hnd]
    rfl
  · exact rawHours_eq d st et

/-- Witness for C1 at a concrete overnight input (22:00 → 06:00). -/
theorem addDailyEntry_duration_v0_witness :
    ("Night" ≠ "") ∧
    ((Store.mk [] [] [] 0).dailyJobs.find?
      (fun e => e.username == "alice" && e.jobName == "Night" && e.date == ⟨2024, 5, 1⟩)
        = none) ∧
    (dailyjob_v0 "alice" (some "Night") (some ⟨2024, 5, 1⟩) (some ⟨22, 0⟩) (some ⟨6, 0⟩) 9
        (Store.mk [] [] [] 0) =
      (Res.redirect "/JobEntry",
        { Store.mk [] [] [] 0 with
            dailyJobs := (Store.mk [] [] [] 0).dailyJobs ++
              [{ id := (Store.mk [] [] [] 0).nextId, username := "alice", jobName := "Night",
                 date := ⟨2024, 5, 1⟩, startTime := ⟨22, 0⟩, endTime := ⟨6, 0⟩,
                 totalHours :=
                   round2 (if rawHours ⟨2024, 5, 1⟩ ⟨22, 0⟩ ⟨6, 0⟩ < 0 then
                             rawHours ⟨2024, 5, 1⟩ ⟨22, 0⟩ ⟨6, 0⟩ + 24
                           else rawHours ⟨2024, 5, 1⟩ ⟨22, 0⟩ ⟨6, 0⟩),
                 createdAt := 9 }],
            nextId := (Store.mk [] [] [] 0).nextId + 1 }) ∧
     rawHours ⟨2024, 5, 1⟩ ⟨22, 0⟩ ⟨6, 0⟩ =
       ((msOfTime ⟨6, 0⟩ - msOfTime ⟨22, 0⟩ : ℤ) : ℚ) / 3600000) :=
  ⟨by decide, rfl,
    addDailyEntry_duration_v0 "alice" "Night" ⟨2024, 5, 1⟩ ⟨22, 0⟩ ⟨6, 0⟩ 9
      (Store.mk [] [] [] 0) (by decide) rfl⟩

/-- Claim C1 counterexample: the part_002 variant
(`POST /add-daily-job`, a cited source of the claim) persists the raw
signed difference.  For 22:00 → 06:00 on 2024-05-01 it stores −16,
while the claimed algorithm (wraparound plus rounding) yields 8.00. -/
theorem addDailyEntry_v2_not_duration :
    ((addDailyJob_v2 "alice" (some "Tutoring") (some ⟨2024, 5, 1⟩) (some ⟨22, 0⟩)
        (some ⟨6, 0⟩) 7 (Store.mk [] [] [] 0)).2.dailyJobs.map DailyEntry.totalHours) =
      [rawHours ⟨2024, 5, 1⟩ ⟨22, 0⟩ ⟨6, 0⟩] ∧
    rawHours ⟨2024, 5, 1⟩ ⟨22, 0⟩ ⟨6, 0⟩ = -16 ∧
    round2 (if rawHours ⟨2024, 5, 1⟩ ⟨22, 0⟩ ⟨6, 0⟩ < 0 then
              rawHours ⟨2024, 5, 1⟩ ⟨22, 0⟩ ⟨6, 0⟩ + 24
            else rawHours ⟨2024, 5, 1⟩ ⟨22, 0⟩ ⟨6, 0⟩) = 8 ∧
    (-16 : ℚ) ≠ 8 := by
  have hr : rawHours ⟨2024, 5, 1⟩ ⟨22, 0⟩ ⟨6, 0⟩ = -16 := by
    norm_num [rawHours, instantMs, dateEpochMs, msOfTime, daysFromCivil]
  refine ⟨rfl, hr, ?_, by norm_num⟩
  rw [hr]
  norm_num [round2, round_eq]

/-! ### Claim C3 -/

theorem find?_append_none {α : Type} {p : α → Bool} {l1 l2 : List α}
    (h : l1.find? p = none) : (l1 ++ l2).find? p = l2.find? p := by
  simp [List.find?_append, h]

/-- Claim C3 (amended): in the part_000 variant, after a first
successful `addDailyEntry` for `(user, jobName, date)`, a second
submission for the same triple inserts nothing — the store is
unchanged, so the stored entry still carries the first submission's
values and the triple occurs exactly once — though its visible
response is the same plain redirect as on success, not a rendered
error.  Uniqueness per triple is preserved by every submission.
(The part_002 variant has no duplicate check at all; see the
counterexample.) -/
theorem dailyEntry_duplicate_v0 (user jn : String) (d : Date) (st1 et1 st2 et2 : Time)
    (now1 now2 : ℕ) (s : Store) (hjn : jn ≠ "")
    (hnd : s.dailyJobs.find?
      (fun e => e.username == user && e.jobName == jn && e.date == d) = none) :
    (dailyjob_v0 user (some jn) (some d) (some st1) (some et1) now1 s).2.dailyJobs =
      s.dailyJobs ++
        [{ id := s.nextId, username := user, jobName := jn, date := d,
           startTime := st1, endTime := et1,
           totalHours := round2 (durationHours d st1 et1), createdAt := now1 }] ∧
    dailyjob_v0 user (some jn) (some d) (some st2) (some et2) now2
        (dailyjob_v0 user (some jn) (some d) (some st1) (some et1) now1 s).2 =
      (Res.redirect "/JobEntry",
        (dailyjob_v0 user (some jn) (some d) (some st1) (some et1) now1 s).2) ∧
    (dailyjob_v0 user (some jn) (some d) (some st1) (some et1) now1 s).2.dailyJobs.filter
        (fun e => e.username == user && e.jobName == jn && e.date == d) =
      [{ id := s.nextId, username := user, jobName := jn, date := d,
         startTime := st1, endTime := et1,
         totalHours := round2 (durationHours d st1 et1), createdAt := now1 }] ∧
    (atMostOnePerTriple s.dailyJobs →
      atMostOnePerTriple
        (dailyjob_v0 user (some jn) (some d) (some st2) (some et2) now2
          (dailyjob_v0 user (some jn) (some d) (some st1) (some et1) now1 s).2).2.dailyJobs) := by
  have h1 : dailyjob_v0 user (some jn) (some d) (some st1) (some et1) now1 s =
      (Res.redirect "/JobEntry",
        { s with
            dailyJobs := s.dailyJobs ++
              [{ id := s.nextId, username := user, jobName := jn, date := d,
                 startTime := st1, endTime := et1,
                 totalHours := round2 (durationHours d st1 et1), createdAt := now1 }],
            nextId := s.nextId + 1 }) := by
    simp only [dailyjob_v0]
    rw [if_neg hjn, hnd]
  have hfind :
      ((dailyjob_v0 user (some jn) (some d) (some st1) (some et1) now1 s).2.dailyJobs.find?
        (fun e => e.username == user && e.jobName == jn && e.date == d)) =
      some { id := s.nextId, username := user, jobName := jn, date := d,
             startTime := st1, endTime := et1,
             totalHours := round2 (durationHours d st1 et1), createdAt := now1 } := by
    rw [h1, find?_append_none hnd]
    simp
  have h2 : dailyjob_v0 user (some jn) (some d) (some st2) (some et2) now2
      (dailyjob_v0 user (some jn) (some d) (some st1) (some et1) now1 s).2 =
      (Res.redirect "/JobEntry",
        (dailyjob_v0 user (some jn) (some d) (some st1) (some et1) now1 s).2) := by
    conv_lhs => rw [dailyjob_v0]
    rw [if_neg hjn, hfind]
  refine ⟨by rw [h1], h2, ?_, ?_⟩
  · rw [h1]
    rw [List.filter_append]
    have hf1 : s.dailyJobs.filter
        (fun e => e.username == user && e.jobName == jn && e.date == d) = [] :=
      List.filter_eq_nil_iff.mpr (fun a ha hp => by
        have := List.find?_eq_none.mp hnd a ha
        exact this hp)
    rw [hf1]
    simp
  · intro hinv
    rw [h2, h1]
    have hall : ∀ a ∈ s.dailyJobs,
        ¬(a.username = user ∧ a.jobName = jn ∧ a.date = d) := by
      intro a ha hcontra
      have := List.find?_eq_none.mp hnd a ha
      apply this
      simp [hcontra.1, hcontra.2.1, hcontra.2.2]
    refine List.pairwise_append.mpr ⟨hinv, List.pairwise_singleton _ _, ?_⟩
    intro a ha b hb
    simp only [List.mem_singleton] at hb
    subst hb
    intro hcontra
    exact hall a ha hcontra

/-- Witness for C3 at a concrete input. -/
theorem dailyEntry_duplicate_v0_witness :
    ("Tutoring" ≠ "") ∧
    (sEmpty.dailyJobs.find?
      (fun e => e.username == "u" && e.jobName == "Tutoring" && e.date == ⟨2024, 5, 1⟩)
        = none) ∧
    ((dailyjob_v0 "u" (some "Tutoring") (some ⟨2024, 5, 1⟩) (some ⟨9, 0⟩) (some ⟨17, 0⟩) 1
        sEmpty).2.dailyJobs =
      sEmpty.dailyJobs ++
        [{ id := sEmpty.nextId, username := "u", jobName := "Tutoring", date := ⟨2024, 5, 1⟩,
           startTime := ⟨9, 0⟩, endTime := ⟨17, 0⟩,
           totalHours := round2 (durationHours ⟨2024, 5, 1⟩ ⟨9, 0⟩ ⟨17, 0⟩), createdAt := 1 }] ∧
     dailyjob_v0 "u" (some "Tutoring") (some ⟨2024, 5, 1⟩) (some ⟨10, 0⟩) (some ⟨18, 0⟩) 2
        (dailyjob_v0 "u" (some "Tutoring") (some ⟨2024, 5, 1⟩) (some ⟨9, 0⟩) (some ⟨17, 0⟩) 1
          sEmpty).2 =
      (Res.redirect "/JobEntry",
        (dailyjob_v0 "u" (some "Tutoring") (some ⟨2024, 5, 1⟩) (some ⟨9, 0⟩) (some ⟨17, 0⟩) 1
          sEmpty).2) ∧
     (dailyjob_v0 "u" (some "Tutoring") (some ⟨2024, 5, 1⟩) (some ⟨9, 0⟩) (some ⟨17, 0⟩) 1
        sEmpty).2.dailyJobs.filter
        (fun e => e.username == "u" && e.jobName == "Tutoring" && e.date == ⟨2024, 5, 1⟩) =
      [{ id := sEmpty.nextId, username := "u", jobName := "Tutoring", date := ⟨2024, 5, 1⟩,
         startTime := ⟨9, 0⟩, endTime := ⟨17, 0⟩,
         totalHours := round2 (durationHours ⟨2024, 5, 1⟩ ⟨9, 0⟩ ⟨17, 0⟩), createdAt := 1 }] ∧
     (atMostOnePerTriple sEmpty.dailyJobs →
       atMostOnePerTriple
         (dailyjob_v0 "u" (some "Tutoring") (some ⟨2024, 5, 1⟩) (some ⟨10, 0⟩) (some ⟨18, 0⟩) 2
           (dailyjob_v0 "u" (some "Tutoring") (some ⟨2024, 5, 1⟩) (some ⟨9, 0⟩) (some ⟨17, 0⟩) 1
             sEmpty).2).2.dailyJobs)) :=
  ⟨by decide, rfl,
    dailyEntry_duplicate_v0 "u" "Tutoring" ⟨2024, 5, 1⟩ ⟨9, 0⟩ ⟨17, 0⟩ ⟨10, 0⟩ ⟨18, 0⟩ 1 2
      sEmpty (by decide) rfl⟩

/-- Claim C3 counterexample: the part_002 variant (a cited source)
performs no duplicate check — submitting the same
`(user, jobName, date)` twice inserts two records and both responses
are the success redirect, so the store is not left unchanged and more
than one entry per triple exists. -/
theorem addDailyEntry_v2_duplicate_inserted :
    ((addDailyJob_v2 "alice" (some "Tutoring") (some ⟨2024, 5, 1⟩) (some ⟨9, 0⟩) (some ⟨17, 0⟩) 2
        (addDailyJob_v2 "alice" (some "Tutoring") (some ⟨2024, 5, 1⟩) (some ⟨9, 0⟩)
          (some ⟨17, 0⟩) 1 sEmpty).2).2.dailyJobs.length = 2) ∧
    ¬ atMostOnePerTriple
        ((addDailyJob_v2 "alice" (some "Tutoring") (some ⟨2024, 5, 1⟩) (some ⟨9, 0⟩)
            (some ⟨17, 0⟩) 2
          (addDailyJob_v2 "alice" (some "Tutoring") (some ⟨2024, 5, 1⟩) (some ⟨9, 0⟩)
            (some ⟨17, 0⟩) 1 sEmpty).2).2.dailyJobs) ∧
    ((addDailyJob_v2 "alice" (some "Tutoring") (some ⟨2024, 5, 1⟩) (some ⟨9, 0⟩) (some ⟨17, 0⟩) 2
        (addDailyJob_v2 "alice" (some "Tutoring") (some ⟨2024, 5, 1⟩) (some ⟨9, 0⟩)
          (some ⟨17, 0⟩) 1 sEmpty).2).1 = Res.redirect "/") := by
  refine ⟨rfl, ?_, rfl⟩
  intro h
  simp only [atMostOnePerTriple, addDailyJob_v2, sEmpty] at h
  rcases List.pairwise_append.mp h with ⟨-, -, hab⟩
  exact hab _ (List.mem_singleton_self _) _ (List.mem_singleton_self _) ⟨rfl, rfl, rfl⟩

/-! ### Claim C4 -/

/-- Claim C4 (amended): in the part_000 variant, `addJob` trims the
submitted job name and fails with the duplicate-job error exactly when
the user already owns a job whose stored name equals the trimmed
submission; the comparison is plain string equality (trim-only,
case-sensitive), so " Tutoring " and " tutoring" are distinct while
" Tutoring " twice collides.  (The index.js variant neither trims nor
compares trimmed names; see the counterexample.) -/
theorem addJob_trim_v0 (user jn st : String) (dt : Date) (sa : ℚ) (now : ℕ) (s : Store)
    (hjn : jn ≠ "") (hst : st ≠ "") :
    ((∃ j ∈ s.jobs, j.username = user ∧ j.jobName = jsTrim jn) →
      addJob_v0 user (some jn) (some dt) (some st) (some sa) now s =
        (Res.render "jobEntry_page" (some "You have already added this job!"), s)) ∧
    ((∀ j ∈ s.jobs, ¬(j.username = user ∧ j.jobName = jsTrim jn)) →
      addJob_v0 user (some jn) (some dt) (some st) (some sa) now s =
        (Res.redirect "/JobEntry",
          { s with
              jobs := s.jobs ++ [{ id := s.nextId, username := user, jobName := jsTrim jn,
                                   date := dt, salaryType := st, salaryAmount := sa,
                                   createdAt := now }],
              nextId := s.nextId + 1 })) := by
  have hcond : ¬(jn = "" ∨ st = "") := not_or.mpr ⟨hjn, hst⟩
  constructor
  · rintro ⟨j, hj, hju, hjn2⟩
    simp only [addJob_v0]
    rw [if_neg hcond]
    rcases hfind : s.jobs.find? (fun x => x.username == user && x.jobName == jsTrim jn) with _ | j2
    · exact absurd (List.find?_eq_none.mp hfind j hj) (by simp [hju, hjn2])
    · rw [hfind]
  · intro hfree
    have hnone : s.jobs.find? (fun x => x.username == user && x.jobName == jsTrim jn) = none :=
      List.find?_eq_none.mpr (fun x hx => by simpa using hfree x hx)
    simp only [addJob_v0]
    rw [if_neg hcond, hnone]

/-- Witness for C4: with a stored job named `jsTrim " Tutoring "`, the
duplicate submission " Tutoring " fails and the case-different
submission " tutoring" is inserted (distinct post-trim names). -/
theorem addJob_trim_v0_witness :
    (" Tutoring " ≠ "") ∧ ("hourly" ≠ "") ∧ (" tutoring" ≠ "") ∧
    (∃ j ∈ sTut.jobs, j.username = "u" ∧ j.jobName = jsTrim " Tutoring ") ∧
    (∀ j ∈ sTut.jobs, ¬(j.username = "u" ∧ j.jobName = jsTrim " tutoring")) ∧
    (addJob_v0 "u" (some " Tutoring ") (some ⟨2024, 6, 1⟩) (some "hourly") (some 12) 3 sTut =
      (Res.render "jobEntry_page" (some "You have already added this job!"), sTut)) ∧
    (addJob_v0 "u" (some " tutoring") (some ⟨2024, 6, 1⟩) (some "hourly") (some 12) 3 sTut =
      (Res.redirect "/JobEntry",
        { sTut with
            jobs := sTut.jobs ++
              [{ id := sTut.nextId, username := "u", jobName := jsTrim " tutoring",
                 date := ⟨2024, 6, 1⟩, salaryType := "hourly", salaryAmount := 12,
                 createdAt := 3 }],
            nextId := sTut.nextId + 1 })) := by
  refine ⟨by decide, by decide, by decide, ⟨_, List.mem_singleton_self _, rfl, rfl⟩,
    by decide, ?_, ?_⟩
  · exact (addJob_trim_v0 "u" " Tutoring " "hourly" ⟨2024, 6, 1⟩ 12 3 sTut
      (by decide) (by decide)).1 ⟨_, List.mem_singleton_self _, rfl, rfl⟩
  · exact (addJob_trim_v0 "u" " tutoring" "hourly" ⟨2024, 6, 1⟩ 12 3 sTut
      (by decide) (by decide)).2 (by decide)

/-- Claim C4 counterexample: the index.js variant (a cited source)
does not trim — submitting " Tutoring " and then "Tutoring" stores
both verbatim even though their trimmed names coincide, and the first
stored name keeps its surrounding whitespace. -/
theorem addJob_vIx_no_trim :
    ((jobentry_vIx "u" (some "Tutoring") (some ⟨2024, 5, 1⟩) (some "hourly") (some 10) 2
        (jobentry_vIx "u" (some " Tutoring ") (some ⟨2024, 5, 1⟩) (some "hourly") (some 10) 1
          sEmpty).2).2.jobs.map Job.jobName = [" Tutoring ", "Tutoring"]) ∧
    jsTrim " Tutoring " = jsTrim "Tutoring" ∧
    (" Tutoring " : String) ≠ "Tutoring" := by
  exact ⟨rfl, by decide, by decide⟩

/-! ### Claim C6 -/

/-- Claim C6: `authenticate` (part_000 `POST /login`) produces the
same externally visible response in both failure cases — unknown email
and failed hash verification — so the result carries no
user-enumeration signal. -/
theorem login_no_user_enumeration (e1 p1 e2 p2 : Option String)
    (v1 v2 : String → String → Bool) (s1 s2 : Store) (u : User)
    (h1e : falsyS e1 = false) (h1p : falsyS p1 = false)
    (h2e : falsyS e2 = false) (h2p : falsyS p2 = false)
    (hnouser : s1.users.find? (fun x => x.email == e1.getD "") = none)
    (huser : s2.users.find? (fun x => x.email == e2.getD "") = some u)
    (hfail : v2 (p2.getD "") u.password = false) :
    login_v0 e1 p1 v1 s1 = login_v0 e2 p2 v2 s2 ∧
    login_v0 e1 p1 v1 s1 = Res.render "login" (some "Invalid email or password") := by
  have ha : login_v0 e1 p1 v1 s1 = Res.render "login" (some "Invalid email or password") := by
    simp [login_v0, h1e, h1p, hnouser]
  have hb : login_v0 e2 p2 v2 s2 = Res.render "login" (some "Invalid email or password") := by
    simp [login_v0, h2e, h2p, huser, hfail]
  exact ⟨ha.trans hb.symm, ha⟩

/-- Witness for C6: an unknown email against an empty user table, and
a known email with a verifier that rejects, yield the same response. -/
theorem login_no_user_enumeration_witness :
    falsyS (some "a@x.com") = false ∧ falsyS (some "pw") = false ∧
    falsyS (some "b@x.com") = false ∧ falsyS (some "wrong") = false ∧
    sEmpty.users.find? (fun x => x.email == (some "a@x.com").getD "") = none ∧
    (Store.mk [⟨"bob", "b@x.com", "HASH"⟩] [] [] 0).users.find?
      (fun x => x.email == (some "b@x.com").getD "") = some ⟨"bob", "b@x.com", "HASH"⟩ ∧
    (fun _ _ => false : String → String → Bool) ((some "wrong").getD "") "HASH" = false ∧
    (login_v0 (some "a@x.com") (some "pw") (fun _ _ => false) sEmpty =
      login_v0 (some "b@x.com") (some "wrong") (fun _ _ => false)
        (Store.mk [⟨"bob", "b@x.com", "HASH"⟩] [] [] 0) ∧
     login_v0 (some "a@x.com") (some "pw") (fun _ _ => false) sEmpty =
      Res.render "login" (some "Invalid email or password")) :=
  ⟨rfl, rfl, rfl, rfl, rfl, rfl, rfl,
    login_no_user_enumeration (some "a@x.com") (some "pw") (some "b@x.com") (some "wrong")
      (fun _ _ => false) (fun _ _ => false) sEmpty
      (Store.mk [⟨"bob", "b@x.com", "HASH"⟩] [] [] 0) ⟨"bob", "b@x.com", "HASH"⟩
      rfl rfl rfl rfl rfl rfl rfl⟩

/-! ### Claim C7 -/

/-- Claim C7: `registerUser` fails with the validation error when
username, email or password is missing, and with the duplicate-email
error when a user with that email exists; in both failure cases the
store — in particular every existing user record — is unchanged.
Shown for the part_000 handler and for the index.js handler invoked
with `confirmPassword = password` (its extra form field). -/
theorem register_missing_and_duplicate (un em pw : Option String)
    (hash : String → String) (s : Store) :
    ((falsyS un || falsyS em || falsyS pw) = true →
      register_v0 un em pw hash s =
        (Res.render "register" (some "All fields are required!"), s)) ∧
    ((falsyS un || falsyS em || falsyS pw) = false →
      ∀ u ∈ s.users, u.email = em.getD "" →
        register_v0 un em pw hash s =
          (Res.render "register" (some "Email already registered!"), s)) ∧
    ((falsyS un || falsyS em || falsyS pw) = true →
      register_vIx un em pw pw hash s =
        (Res.render "register" (some "All fields are required!"), s)) ∧
    ((falsyS un || falsyS em || falsyS pw) = false →
      ∀ u ∈ s.users, u.email = em.getD "" →
        register_vIx un em pw pw hash s =
          (Res.render "register" (some "Email already registered!"), s)) := by
  refine ⟨fun h => by simp [register_v0, h], fun h u hu hemail => ?_,
    fun h => by simp [register_vIx, h], fun h u hu hemail => ?_⟩
  · rcases hfind : s.users.find? (fun x => x.email == em.getD "") with _ | u2
    · exact absurd (List.find?_eq_none.mp hfind u hu) (by simp [hemail])
    · simp [register_v0, h, hfind]
  · rcases hfind : s.users.find? (fun x => x.email == em.getD "") with _ | u2
    · exact absurd (List.find?_eq_none.mp hfind u hu) (by simp [hemail])
    · simp only [Bool.or_eq_false_iff] at h
      simp [register_vIx, h.1.1, h.1.2, h.2, hfind]

/-- Witness for C7: a missing username is rejected, and registering an
email already present in the one-user store is rejected, for both
embedded handlers. -/
theorem register_missing_and_duplicate_witness :
    ((falsyS (none : Option String) || falsyS (some "a@x.com") || falsyS (some "pw1")) = true ∧
      register_v0 none (some "a@x.com") (some "pw1") (fun x => x) sEmpty =
        (Res.render "register" (some "All fields are required!"), sEmpty)) ∧
    ((falsyS (some "alice") || falsyS (some "a@x.com") || falsyS (some "pw1")) = false ∧
      ⟨"al", "a@x.com", "H"⟩ ∈ (Store.mk [⟨"al", "a@x.com", "H"⟩] [] [] 0).users ∧
      (⟨"al", "a@x.com", "H"⟩ : User).email = (some "a@x.com").getD "" ∧
      register_v0 (some "alice") (some "a@x.com") (some "pw1") (fun x => x)
          (Store.mk [⟨"al", "a@x.com", "H"⟩] [] [] 0) =
        (Res.render "register" (some "Email already registered!"),
          Store.mk [⟨"al", "a@x.com", "H"⟩] [] [] 0)) ∧
    register_vIx (some "alice") (some "a@x.com") (some "pw1") (some "pw1") (fun x => x)
        (Store.mk [⟨"al", "a@x.com", "H"⟩] [] [] 0) =
      (Res.render "register" (some "Email already registered!"),
        Store.mk [⟨"al", "a@x.com", "H"⟩] [] [] 0) :=
  ⟨⟨rfl, (register_missing_and_duplicate none (some "a@x.com") (some "pw1")
      (fun x => x) sEmpty).1 rfl⟩,
   ⟨rfl, List.mem_singleton_self _, rfl,
    (register_missing_and_duplicate (some "alice") (some "a@x.com") (some "pw1")
      (fun x => x) (Store.mk [⟨"al", "a@x.com", "H"⟩] [] [] 0)).2.1 rfl
      ⟨"al", "a@x.com", "H"⟩ (List.mem_singleton_self _) rfl⟩,
   (register_missing_and_duplicate (some "alice") (some "a@x.com") (some "pw1")
      (fun x => x) (Store.mk [⟨"al", "a@x.com", "H"⟩] [] [] 0)).2.2.2 rfl
      ⟨"al", "a@x.com", "H"⟩ (List.mem_singleton_self _) rfl⟩

/-! ### Claim C8 -/

theorem updateFirst_map_eq {α β : Type} (p : α → Bool) (f : α → α) (g : α → β)
    (hg : ∀ x, g (f x) = g x) : ∀ l : List α, (updateFirst p f l).map g = l.map g
  | [] => rfl
  | x :: xs => by
    by_cases hp : p x
    · simp [updateFirst, hp, hg]
    · simp [updateFirst, hp, updateFirst_map_eq p f g hg xs]

theorem mem_updateFirst_of_find? {α : Type} (p : α → Bool) (f : α → α) :
    ∀ {l : List α} {j : α}, l.find? p = some j → f j ∈ updateFirst p f l
  | [], _, h => by simp at h
  | x :: xs, j, h => by
    by_cases hp : p x
    · rw [List.find?_cons_of_pos _ hp] at h
      obtain rfl : x = j := by injection h
      simp [updateFirst, hp]
    · rw [List.find?_cons_of_neg _ hp] at h
      simp only [updateFirst]
      rw [if_neg hp]
      exact List.mem_cons_of_mem _ (mem_updateFirst_of_find? p f h)

/-- Claim C8: `updateJob` (part_000 `POST /update-job`) answers 404
when no job with the given id owned by the caller exists and leaves
the store unchanged; on success it rewrites only the mutable fields
of the matched job — every job's identifier, creation timestamp and
owner are as before, the matched job reappears with the submitted
mutable fields, and the other collections are untouched. -/
theorem updateJob_scope_and_frame (user : String) (jobId : ℕ) (jn : String) (dt : Date)
    (st : String) (sa : ℚ) (s : Store) :
    (s.jobs.find? (fun j => j.id == jobId && j.username == user) = none →
      updateJob_v0 user jobId jn dt st sa s = (Res.notFound "Job not found or cannot edit", s)) ∧
    (∀ j, s.jobs.find? (fun j2 => j2.id == jobId && j2.username == user) = some j →
      (updateJob_v0 user jobId jn dt st sa s).1 = Res.redirect "/JobData" ∧
      (updateJob_v0 user jobId jn dt st sa s).2.users = s.users ∧
      (updateJob_v0 user jobId jn dt st sa s).2.dailyJobs = s.dailyJobs ∧
      (updateJob_v0 user jobId jn dt st sa s).2.jobs.map (fun x => (x.id, x.createdAt, x.username)) =
        s.jobs.map (fun x => (x.id, x.createdAt, x.username)) ∧
      { j with jobName := jn, date := dt, salaryType := st, salaryAmount := sa } ∈
        (updateJob_v0 user jobId jn dt st sa s).2.jobs) := by
  constructor
  · intro h
    simp only [updateJob_v0]
    rw [h]
  · intro j hj
    have hgoal : updateJob_v0 user jobId jn dt st sa s =
        (Res.redirect "/JobData",
          { s with
              jobs := updateFirst (fun j2 => j2.id == jobId && j2.username == user)
                (fun j2 =>
                  { j2 with jobName := jn, date := dt,
                            salaryType := st, salaryAmount := sa })
                s.jobs }) := by
      simp only [updateJob_v0]
      rw [hj]
    rw [hgoal]
    refine ⟨rfl, rfl, rfl, ?_, ?_⟩
    · exact updateFirst_map_eq (fun j2 : Job => j2.id == jobId && j2.username == user)
        (fun j2 : Job =>
          { j2 with jobName := jn, date := dt, salaryType := st, salaryAmount := sa })
        (fun x => (x.id, x.createdAt, x.username)) (fun x => rfl) s.jobs
    · exact mem_updateFirst_of_find? (fun j2 : Job => j2.id == jobId && j2.username == user)
        (fun j2 : Job =>
          { j2 with jobName := jn, date := dt, salaryType := st, salaryAmount := sa })
        hj

/-- Witness for C8: a foreign id is a 404 with no change, and updating
`bobJob` as "bob" keeps id, owner and creation time while the job with
the new mutable fields is stored. -/
theorem updateJob_scope_and_frame_witness :
    (sBob.jobs.find? (fun j => j.id == 9 && j.username == "bob") = none ∧
      updateJob_v0 "bob" 9 "Mowing" ⟨2024, 6, 2⟩ "fixed" 20 sBob =
        (Res.notFound "Job not found or cannot edit", sBob)) ∧
    (sBob.jobs.find? (fun j2 => j2.id == 1 && j2.username == "bob") = some bobJob ∧
      ((updateJob_v0 "bob" 1 "Mowing" ⟨2024, 6, 2⟩ "fixed" 20 sBob).1 = Res.redirect "/JobData" ∧
       (updateJob_v0 "bob" 1 "Mowing" ⟨2024, 6, 2⟩ "fixed" 20 sBob).2.users = sBob.users ∧
       (updateJob_v0 "bob" 1 "Mowing" ⟨2024, 6, 2⟩ "fixed" 20 sBob).2.dailyJobs = sBob.dailyJobs ∧
       (updateJob_v0 "bob" 1 "Mowing" ⟨2024, 6, 2⟩ "fixed" 20 sBob).2.jobs.map
           (fun x => (x.id, x.createdAt, x.username)) =
         sBob.jobs.map (fun x => (x.id, x.createdAt, x.username)) ∧
       { bobJob with jobName := "Mowing", date := ⟨2024, 6, 2⟩,
                     salaryType := "fixed", salaryAmount := 20 } ∈
         (updateJob_v0 "bob" 1 "Mowing" ⟨2024, 6, 2⟩ "fixed" 20 sBob).2.jobs)) :=
  ⟨⟨rfl, (updateJob_scope_and_frame "bob" 9 "Mowing" ⟨2024, 6, 2⟩ "fixed" 20 sBob).1 rfl⟩,
   ⟨rfl, (updateJob_scope_and_frame "bob" 1 "Mowing" ⟨2024, 6, 2⟩ "fixed" 20 sBob).2 bobJob rfl⟩⟩

/-! ### Claim C9 -/

theorem mem_eraseP_of_not {α : Type} {p : α → Bool} :
    ∀ {l : List α} {a : α}, a ∈ l → p a = false → a ∈ l.eraseP p
  | x :: xs, a, ha, hp => by
    by_cases hq : p x
    · rw [List.eraseP_cons_of_pos hq]
      rcases List.mem_cons.mp ha with rfl | htail
      · rw [hp] at hq; exact absurd hq (by simp)
      · exact htail
    · rw [List.eraseP_cons_of_neg (by simpa using hq)]
      rcases List.mem_cons.mp ha with rfl | htail
      · exact List.mem_cons_self _ _
      · exact List.mem_cons_of_mem _ (mem_eraseP_of_not htail hp)

/-- Claim C9 (amended): `deleteJob` and `deleteDailyEntry` (part_000)
are scoped to the owning user: a delete aimed at a record not owned by
the caller removes nothing — every record not matching
`(id, caller)` is still present afterwards, and when no record
matches, the store is exactly unchanged — but the response is the
same plain redirect as on success, not a `NotFoundError` (see the
counterexample).  The other collections are never touched. -/
theorem delete_scoped_v0 (user : String) (jobId entryId : ℕ) (s : Store) :
    (deleteJob_v0 user jobId s).1 = Res.redirect "/JobData" ∧
    (∀ j ∈ s.jobs, ¬(j.id = jobId ∧ j.username = user) →
      j ∈ (deleteJob_v0 user jobId s).2.jobs) ∧
    ((∀ j ∈ s.jobs, ¬(j.id = jobId ∧ j.username = user)) →
      (deleteJob_v0 user jobId s).2 = s) ∧
    (deleteJob_v0 user jobId s).2.users = s.users ∧
    (deleteJob_v0 user jobId s).2.dailyJobs = s.dailyJobs ∧
    (deleteDailyJob_v0 user entryId s).1 = Res.redirect "/JobData" ∧
    (∀ e ∈ s.dailyJobs, ¬(e.id = entryId ∧ e.username = user) →
      e ∈ (deleteDailyJob_v0 user entryId s).2.dailyJobs) ∧
    ((∀ e ∈ s.dailyJobs, ¬(e.id = entryId ∧ e.username = user)) →
      (deleteDailyJob_v0 user entryId s).2 = s) ∧
    (deleteDailyJob_v0 user entryId s).2.users = s.users ∧
    (deleteDailyJob_v0 user entryId s).2.jobs = s.jobs := by
  refine ⟨rfl, ?_, ?_, rfl, rfl, rfl, ?_, ?_, rfl, rfl⟩
  · intro j hj hnot
    exact mem_eraseP_of_not hj (by simpa using hnot)
  · intro hall
    show { s with jobs := s.jobs.eraseP _ } = s
    rw [List.eraseP_of_forall_not (fun a ha => by simpa using hall a ha)]
  · intro e he hnot
    exact mem_eraseP_of_not he (by simpa using hnot)
  · intro hall
    show { s with dailyJobs := s.dailyJobs.eraseP _ } = s
    rw [List.eraseP_of_forall_not (fun a ha => by simpa using hall a ha)]

/-- Witness for C9: "alice" deleting bob's job and a daily entry id
she does not own leaves `sBob` intact. -/
theorem delete_scoped_v0_witness :
    (deleteJob_v0 "alice" 1 sBob).1 = Res.redirect "/JobData" ∧
    bobJob ∈ sBob.jobs ∧ ¬(bobJob.id = 1 ∧ bobJob.username = "alice") ∧
    bobJob ∈ (deleteJob_v0 "alice" 1 sBob).2.jobs ∧
    (deleteJob_v0 "alice" 1 sBob).2 = sBob ∧
    (deleteDailyJob_v0 "alice" 5 sBob).2 = sBob :=
  ⟨(delete_scoped_v0 "alice" 1 5 sBob).1,
   List.mem_singleton_self _, by decide,
   (delete_scoped_v0 "alice" 1 5 sBob).2.1 bobJob (List.mem_singleton_self _) (by decide),
   (delete_scoped_v0 "alice" 1 5 sBob).2.2.1 (by decide),
   (delete_scoped_v0 "alice" 1 5 sBob).2.2.2.2.2.2.2.1 (by decide)⟩

/-- Claim C9 counterexample: "alice" deleting bob's job does not fail
with a `NotFoundError` — the response is the same redirect as on a
successful delete, with the store unchanged. -/
theorem deleteJob_foreign_silent :
    deleteJob_v0 "alice" 1 sBob = (Res.redirect "/JobData", sBob) ∧
    Res.redirect "/JobData" ≠ Res.notFound "Job not found or cannot edit" := by
  exact ⟨rfl, by decide⟩

/-! ### Claim C2 -/

theorem jobRate_foldl_not_mem (n : String) :
    ∀ (jobs : List Job) (acc : String → Option ℚ), (∀ j ∈ jobs, j.jobName ≠ n) →
      jobs.foldl jobRateStep acc n = acc n
  | [], _, _ => rfl
  | j :: js, acc, h => by
    rw [List.foldl_cons,
      jobRate_foldl_not_mem n js (jobRateStep acc j)
        (fun x hx => h x (List.mem_cons_of_mem _ hx))]
    simp only [jobRateStep]
    rw [if_neg (Ne.symm (h j (List.mem_cons_self _ _)))]

theorem jobRate_eq_none (jobs : List Job) (n : String)
    (h : ∀ j ∈ jobs, j.jobName ≠ n) : jobRate jobs n = none :=
  jobRate_foldl_not_mem n jobs (fun _ => none) h

theorem jobHours_foldl (j k : String) :
    ∀ (l : List (DailyEntry × ℚ)) (m : String → String → ℚ),
      l.foldl jobHoursStep m j k =
        m j k + ((l.filter (fun p => decide (j = p.1.jobName ∧ k = monthKey p.1.date))).map
          (fun p => p.1.totalHours)).sum
  | [], m => by simp
  | p :: l, m => by
    rw [List.foldl_cons, jobHours_foldl j k l (jobHoursStep m p)]
    by_cases hc : j = p.1.jobName ∧ k = monthKey p.1.date
    · obtain ⟨h1, h2⟩ := hc
      subst h1
      subst h2
      simp [jobHoursStep, List.filter_cons]
      ring
    · simp [jobHoursStep, List.filter_cons, hc]

/-- Claim C2: `computeReport` (part_000 `GET /JobData`) assigns every
daily entry `calculatedSalary = round2(totalHours * rate(jobName))`
with the rate looked up in the user's jobs; an entry whose job name
matches none of the user's jobs gets salary 0; and the monthly-hours
map sends each job name and each month key derived from the entry
date to the sum of `totalHours` of that job's entries in that month. -/
theorem computeReport_salary_monthly_v0 (user : String) (today : Date) (s : Store) :
    (∀ e sal, (e, sal) ∈ (computeReport_v0 user today s).entries →
      sal = round2 (e.totalHours *
        ((jobRate (s.jobs.filter (fun j => j.username == user)) e.jobName).getD 0))) ∧
    (∀ e sal, (e, sal) ∈ (computeReport_v0 user today s).entries →
      (∀ j ∈ s.jobs, j.username = user → j.jobName ≠ e.jobName) → sal = 0) ∧
    (∀ j k, (computeReport_v0 user today s).jobHoursMap j k =
      (((s.dailyJobs.filter (fun e => e.username == user)).filter
          (fun e => decide (j = e.jobName ∧ k = monthKey e.date))).map
        DailyEntry.totalHours).sum) := by
  have hsal : ∀ e sal, (e, sal) ∈ (computeReport_v0 user today s).entries →
      sal = round2 (e.totalHours *
        ((jobRate (s.jobs.filter (fun j => j.username == user)) e.jobName).getD 0)) := by
    intro e sal hmem
    simp only [computeReport_v0, List.mem_map] at hmem
    obtain ⟨dj, hdj, heq⟩ := hmem
    obtain ⟨rfl, rfl⟩ : dj = e ∧
        round2 (dj.totalHours *
          ((jobRate (s.jobs.filter (fun j => j.username == user)) dj.jobName).getD 0)) = sal := by
      exact ⟨congrArg Prod.fst heq, congrArg Prod.snd heq⟩
    rfl
  refine ⟨hsal, ?_, ?_⟩
  · intro e sal hmem hnone
    rw [hsal e sal hmem]
    have hrate : jobRate (s.jobs.filter (fun j => j.username == user)) e.jobName = none := by
      refine jobRate_eq_none _ _ (fun j hj => ?_)
      rw [List.mem_filter] at hj
      exact hnone j hj.1 (by simpa using hj.2)
    rw [hrate]
    simpa using round2_zero
  · intro j k
    show (_ : List (DailyEntry × ℚ)).foldl jobHoursStep (fun _ _ => 0) j k = _
    rw [jobHours_foldl]
    rw [List.filter_map, List.map_map]
    exact zero_add _

/-- A job, two entries (one with no matching job) and the store
holding them, as concrete report-witness inputs. -/
def repJob : Job :=
  { id := 3, username := "u", jobName := "A", date := ⟨2024, 4, 1⟩,
    salaryType := "hourly", salaryAmount := 10, createdAt := 0 }

def repEntryA : DailyEntry :=
  { id := 4, username := "u", jobName := "A", date := ⟨2024, 5, 1⟩,
    startTime := ⟨9, 0⟩, endTime := ⟨12, 0⟩, totalHours := 3, createdAt := 0 }

def repEntryB : DailyEntry :=
  { id := 5, username := "u", jobName := "B", date := ⟨2024, 5, 2⟩,
    startTime := ⟨9, 0⟩, endTime := ⟨10, 0⟩, totalHours := 2, createdAt := 0 }

def sRep : Store := ⟨[], [repJob], [repEntryA, repEntryB], 6⟩

/-- Witness for C2: in `sRep`, the entry against the matchless job
"B" is in the report and gets salary 0, and the monthly map is the
filtered sum. -/
theorem computeReport_salary_monthly_v0_witness :
    ((repEntryB, round2 (repEntryB.totalHours *
        ((jobRate (sRep.jobs.filter (fun j => j.username == "u")) repEntryB.jobName).getD 0))) ∈
      (computeReport_v0 "u" ⟨2024, 6, 15⟩ sRep).entries) ∧
    (∀ j ∈ sRep.jobs, j.username = "u" → j.jobName ≠ repEntryB.jobName) ∧
    round2 (repEntryB.totalHours *
        ((jobRate (sRep.jobs.filter (fun j => j.username == "u")) repEntryB.jobName).getD 0)) = 0 ∧
    (computeReport_v0 "u" ⟨2024, 6, 15⟩ sRep).jobHoursMap "A" "2024-05" =
      (((sRep.dailyJobs.filter (fun e => e.username == "u")).filter
          (fun e => decide ("A" = e.jobName ∧ "2024-05" = monthKey e.date))).map
        DailyEntry.totalHours).sum := by
  have hmem : (repEntryB, round2 (repEntryB.totalHours *
      ((jobRate (sRep.jobs.filter (fun j => j.username == "u")) repEntryB.jobName).getD 0))) ∈
      (computeReport_v0 "u" ⟨2024, 6, 15⟩ sRep).entries :=
    List.mem_cons_of_mem _ (List.mem_singleton_self _)
  exact ⟨hmem, by decide,
    (computeReport_salary_monthly_v0 "u" ⟨2024, 6, 15⟩ sRep).2.1 repEntryB _ hmem (by decide),
    (computeReport_salary_monthly_v0 "u" ⟨2024, 6, 15⟩ sRep).2.2 "A" "2024-05"⟩

/-! ### Claim C10 -/

/-- Claim C10 (amended): in the index.js variant the persisted
`totalHours` is `Number` of the caller-supplied form field, never
computed from the times (the same stored value for every pair of
times); a submission with `totalHours` absent or the empty string is
rejected as a missing field, but the string "0" is truthy, so it is
accepted and stored as 0.  In the part_001 variant the caller-supplied
value is used (rounded) whenever it coerces to a nonzero number, and
the duration is computed from the times only otherwise. -/
theorem totalHours_caller_supplied (user jn : String) (d today : Date) (st et : Time)
    (th : Option String) (q : ℚ) (now : ℕ) (s : Store) (hjn : jn ≠ "") :
    (falsyS th = true →
      dailyjob_vIx user (some jn) (some d) (some st) (some et) th today now s =
        some (Res.render "jobEntry_page" (some "All fields are required!"), s)) ∧
    (falsyS th = false → d = today →
      s.dailyJobs.find? (fun e => e.username == user && e.jobName == jn && e.date == d) = none →
      jsNumberOpt th = some q →
      dailyjob_vIx user (some jn) (some d) (some st) (some et) th today now s =
        some (Res.render "jobEntry_page" none,
          { s with
              dailyJobs := s.dailyJobs ++
                [{ id := s.nextId, username := user, jobName := jn, date := d,
                   startTime := st, endTime := et, totalHours := q, createdAt := now }],
              nextId := s.nextId + 1 })) ∧
    (jsNumberOpt th = some q → q ≠ 0 →
      s.dailyJobs.find? (fun e => e.username == user && e.jobName == jn && e.date == d) = none →
      dailyjob_v1 user (some jn) (some d) (some st) (some et) th now s =
        (Res.redirect "/JobEntry",
          { s with
              dailyJobs := s.dailyJobs ++
                [{ id := s.nextId, username := user, jobName := jn, date := d,
                   startTime := st, endTime := et, totalHours := round2 q, createdAt := now }],
              nextId := s.nextId + 1 })) ∧
    ((jsNumberOpt th = none ∨ jsNumberOpt th = some 0) →
      s.dailyJobs.find? (fun e => e.username == user && e.jobName == jn && e.date == d) = none →
      dailyjob_v1 user (some jn) (some d) (some st) (some et) th now s =
        (Res.redirect "/JobEntry",
          { s with
              dailyJobs := s.dailyJobs ++
                [{ id := s.nextId, username := user, jobName := jn, date := d,
                   startTime := st, endTime := et,
                   totalHours := round2 (durationHours d st et), createdAt := now }],
              nextId := s.nextId + 1 })) := by
  refine ⟨?_, ?_, ?_, ?_⟩
  · intro hth
    simp only [dailyjob_vIx]
    rw [if_pos (Or.inr hth)]
  · intro hth htoday hnd hq
    simp only [dailyjob_vIx]
    rw [if_neg (not_or.mpr ⟨hjn, by simp [hth]⟩), if_neg (by simp [htoday]), hnd, hq]
    rfl
  · intro hq hq0 hnd
    simp only [dailyjob_v1]
    rw [if_neg hjn, hnd, hq]
    simp [hq0]
  · intro hq hnd
    simp only [dailyjob_v1]
    rw [if_neg hjn, hnd]
    rcases hq with hq | hq
    · rw [hq]
    · rw [hq]
      simp

/-- Witness for C10: an absent field is rejected; the field "8" with
times 09:00 and 17:00 (and with 10:00 and 11:00) stores 8 in
index.js; part_001 stores `round2 8` for "8" and falls back to the
computed duration for "0". -/
theorem totalHours_caller_supplied_witness :
    falsyS (none : Option String) = true ∧
    falsyS (some "8") = false ∧ jsNumberOpt (some "8") = some 8 ∧
    jsNumberOpt (some "0") = some 0 ∧ (8 : ℚ) ≠ 0 ∧
    sEmpty.dailyJobs.find?
      (fun e => e.username == "u" && e.jobName == "A" && e.date == ⟨2024, 5, 1⟩) = none ∧
    (dailyjob_vIx "u" (some "A") (some ⟨2024, 5, 1⟩) (some ⟨9, 0⟩) (some ⟨17, 0⟩) none
        ⟨2024, 5, 1⟩ 3 sEmpty =
      some (Res.render "jobEntry_page" (some "All fields are required!"), sEmpty)) ∧
    (dailyjob_vIx "u" (some "A") (some ⟨2024, 5, 1⟩) (some ⟨9, 0⟩) (some ⟨17, 0⟩) (some "8")
        ⟨2024, 5, 1⟩ 3 sEmpty =
      some (Res.render "jobEntry_page" none,
        { sEmpty with
            dailyJobs := sEmpty.dailyJobs ++
              [{ id := sEmpty.nextId, username := "u", jobName := "A", date := ⟨2024, 5, 1⟩,
                 startTime := ⟨9, 0⟩, endTime := ⟨17, 0⟩, totalHours := 8, createdAt := 3 }],
            nextId := sEmpty.nextId + 1 })) ∧
    (dailyjob_vIx "u" (some "A") (some ⟨2024, 5, 1⟩) (some ⟨10, 0⟩) (some ⟨11, 0⟩) (some "8")
        ⟨2024, 5, 1⟩ 3 sEmpty =
      some (Res.render "jobEntry_page" none,
        { sEmpty with
            dailyJobs := sEmpty.dailyJobs ++
              [{ id := sEmpty.nextId, username := "u", jobName := "A", date := ⟨2024, 5, 1⟩,
                 startTime := ⟨10, 0⟩, endTime := ⟨11, 0⟩, totalHours := 8, createdAt := 3 }],
            nextId := sEmpty.nextId + 1 })) ∧
    (dailyjob_v1 "u" (some "A") (some ⟨2024, 5, 1⟩) (some ⟨9, 0⟩) (some ⟨17, 0⟩) (some "8")
        3 sEmpty =
      (Res.redirect "/JobEntry",
        { sEmpty with
            dailyJobs := sEmpty.dailyJobs ++
              [{ id := sEmpty.nextId, username := "u", jobName := "A", date := ⟨2024, 5, 1⟩,
                 startTime := ⟨9, 0⟩, endTime := ⟨17, 0⟩, totalHours := round2 8,
                 createdAt := 3 }],
            nextId := sEmpty.nextId + 1 })) ∧
    (dailyjob_v1 "u" (some "A") (some ⟨2024, 5, 1⟩) (some ⟨9, 0⟩) (some ⟨17, 0⟩) (some "0")
        3 sEmpty =
      (Res.redirect "/JobEntry",
        { sEmpty with
            dailyJobs := sEmpty.dailyJobs ++
              [{ id := sEmpty.nextId, username := "u", jobName := "A", date := ⟨2024, 5, 1⟩,
                 startTime := ⟨9, 0⟩, endTime := ⟨17, 0⟩,
                 totalHours := round2 (durationHours ⟨2024, 5, 1⟩ ⟨9, 0⟩ ⟨17, 0⟩),
                 createdAt := 3 }],
            nextId := sEmpty.nextId + 1 })) := by
  have h8 : jsNumberOpt (some "8") = some 8 := by
    show some ((8 : ℕ) : ℚ) = some 8
    norm_num
  have h0 : jsNumberOpt (some "0") = some 0 := by
    show some ((0 : ℕ) : ℚ) = some 0
    norm_num
  refine ⟨rfl, rfl, h8, h0, by norm_num, rfl, ?_, ?_, ?_, ?_, ?_⟩
  · exact (totalHours_caller_supplied "u" "A" ⟨2024, 5, 1⟩ ⟨2024, 5, 1⟩ ⟨9, 0⟩ ⟨17, 0⟩
      none 8 3 sEmpty (by decide)).1 rfl
  · exact (totalHours_caller_supplied "u" "A" ⟨2024, 5, 1⟩ ⟨2024, 5, 1⟩ ⟨9, 0⟩ ⟨17, 0⟩
      (some "8") 8 3 sEmpty (by decide)).2.1 rfl rfl rfl h8
  · exact (totalHours_caller_supplied "u" "A" ⟨2024, 5, 1⟩ ⟨2024, 5, 1⟩ ⟨10, 0⟩ ⟨11, 0⟩
      (some "8") 8 3 sEmpty (by decide)).2.1 rfl rfl rfl h8
  · exact (totalHours_caller_supplied "u" "A" ⟨2024, 5, 1⟩ ⟨2024, 5, 1⟩ ⟨9, 0⟩ ⟨17, 0⟩
      (some "8") 8 3 sEmpty (by decide)).2.2.1 h8 (by norm_num) rfl
  · exact (totalHours_caller_supplied "u" "A" ⟨2024, 5, 1⟩ ⟨2024, 5, 1⟩ ⟨9, 0⟩ ⟨17, 0⟩
      (some "0") 0 3 sEmpty (by decide)).2.2.2 (Or.inr h0) rfl

/-- Claim C10 counterexample: in index.js the string "0" for
`totalHours` is truthy, so the submission is accepted (storing 0),
not rejected as a missing field as the claim states. -/
theorem totalHours_zero_string_accepted :
    falsyS (some "0") = false ∧
    ((dailyjob_vIx "u" (some "A") (some ⟨2024, 5, 1⟩) (some ⟨9, 0⟩) (some ⟨17, 0⟩) (some "0")
        ⟨2024, 5, 1⟩ 3 sEmpty).map (fun r => r.2.dailyJobs.map DailyEntry.totalHours))
      = some [0] ∧
    (dailyjob_vIx "u" (some "A") (some ⟨2024, 5, 1⟩) (some ⟨9, 0⟩) (some ⟨17, 0⟩) (some "0")
        ⟨2024, 5, 1⟩ 3 sEmpty).map Prod.fst ≠
      some (Res.render "jobEntry_page" (some "All fields are required!")) := by
  refine ⟨rfl, ?_, by decide⟩
  show some [((0 : ℕ) : ℚ)] = some [0]
  norm_num

end WorkHours
